import Mathlib

/-!
Verification of the RAG Builder frontend (Vite + React + TypeScript) against
its natural-language specification.

The sources embedded here are:
* `frontend/src/types.ts` — the public-interface record types;
* `frontend/src/routes/ChatbotDetailPage.tsx` — document listing and labels;
* `frontend/src/routes/ChatbotsPage.tsx` — the chatbot-creation form (zod schema);
* `frontend/src/components/ChatPanel.tsx` — the chat panel state machine;
* `frontend/src/lib/api.ts` — token storage helpers;
* parts of the ingestion/retrieval core that live in the backend/worker
  services are not among the available sources and are modelled from the
  spec, marked `Modelled from the spec:` in their doc comments.
-/

namespace RagBuilder

/-! ### Public-interface record types (frontend/src/types.ts) -/

/-- The source item `DocumentStatus` from `types.ts`:
`'pending' | 'processing' | 'ready' | 'failed'`. -/
inductive DocumentStatus where
  | pending
  | processing
  | ready
  | failed
deriving DecidableEq, Repr

/-- The string literal each `DocumentStatus` alternative denotes in the
TypeScript union type. -/
def DocumentStatus.key : DocumentStatus → String
  | .pending => "pending"
  | .processing => "processing"
  | .ready => "ready"
  | .failed => "failed"

/-- The source item `ChatbotDocument` from `types.ts` (lines 61–70): the document record
exposed at the public interface. `error` is `string | null`, embedded as
`Option String`; `created_at`/`updated_at` are ISO strings. -/
structure ChatbotDocument where
  id : String
  file_name : String
  mime_type : String
  size_bytes : Nat
  status : DocumentStatus
  error : Option String
  created_at : String
  updated_at : String
deriving DecidableEq, Repr

/-- The field names of `ChatbotDocument` exactly as they are written in
`types.ts`, in source order. -/
def chatbotDocumentFields : List String :=
  ["id", "file_name", "mime_type", "size_bytes", "status", "error",
   "created_at", "updated_at"]

/-- The source item `ConversationMessageRole` from `types.ts`. -/
inductive ConversationMessageRole where
  | user
  | assistant
  | system
  | tool
deriving DecidableEq, Repr

/-- The source item `ConversationMessage` from `types.ts`. -/
structure ConversationMessage where
  id : String
  role : ConversationMessageRole
  content : String
  created_at : String
deriving DecidableEq, Repr

/-- The source item `ChatContextChunk` from `types.ts`: `document_name` is `string | null`,
`score` is a JS number embedded as `ℚ`. -/
structure ChatContextChunk where
  id : String
  document_id : String
  document_name : Option String
  score : ℚ
  content : String
deriving DecidableEq, Repr

/-- The source item `ChatResponsePayload` from `types.ts`. -/
structure ChatResponsePayload where
  conversation_id : String
  reply : ConversationMessage
  context : List ChatContextChunk
  created_new_conversation : Bool
deriving DecidableEq, Repr

/-- The source item `ChatRequestPayload` from `frontend/src/lib/chat.ts`: the body of
`POST /chatbots/:id/chat`; `conversation_id` and `top_k` are optional. -/
structure ChatRequestPayload where
  message : String
  conversation_id : Option String
  top_k : Option Nat
deriving DecidableEq, Repr

/-! ### Document listing (frontend/src/routes/ChatbotDetailPage.tsx) -/

/-- The source item `documentStatusLabels` from `ChatbotDetailPage.tsx` (lines 29–34), a
`Record<string, string>` embedded as a partial map on strings. -/
def documentStatusLabels (k : String) : Option String :=
  if k = "pending" then some "Pending"
  else if k = "processing" then some "Processing"
  else if k = "ready" then some "Ready"
  else if k = "failed" then some "Failed"
  else none

/-- Modelled from the spec: the initial document status. The upload path
that creates `Document` rows lives in the backend service, which is not
among the available sources; §4.5 of the spec says "`PENDING` is the only
initial state (set at upload, outside this core)". -/
def specInitialStatus : DocumentStatus := .pending

/-! ### Chat panel (frontend/src/components/ChatPanel.tsx) -/

/-- The JavaScript `String.prototype.trim()` used by the chat composer and
the system-prompt field, embedded over the character list: whitespace is
stripped from both ends. -/
def jsTrim (s : String) : String :=
  String.mk (((s.toList.dropWhile Char.isWhitespace).reverse.dropWhile
    Char.isWhitespace).reverse)

/-- The source item `ChatLogMessage` from `ChatPanel.tsx`: a `ConversationMessage` plus the
optional `pending` flag (absent is rendered the same as `false`, so it is
embedded as `Bool`). -/
structure ChatLogMessage where
  id : String
  role : ConversationMessageRole
  content : String
  created_at : String
  pending : Bool
deriving DecidableEq, Repr

/-- The source item `mapResponseMessage` from `ChatPanel.tsx`. -/
def mapResponseMessage (m : ConversationMessage) : ChatLogMessage :=
  { id := m.id, role := m.role, content := m.content,
    created_at := m.created_at, pending := false }

/-- The React state of `ChatPanel` (the six `useState` hooks) together with
`chatMutation.isPending` from react-query, which the component reads to
gate submission. -/
structure ChatPanelState where
  conversationId : Option String
  messages : List ChatLogMessage
  contextChunks : List ChatContextChunk
  inputValue : String
  chatError : Option String
  pendingMessageId : Option String
  isPending : Bool
deriving DecidableEq, Repr

/-- The initial `ChatPanel` state: every hook starts at `null`/empty, and no
mutation is in flight. -/
def initialChatPanelState : ChatPanelState :=
  { conversationId := none, messages := [], contextChunks := [],
    inputValue := "", chatError := none, pendingMessageId := none,
    isPending := false }

/-- The source item `handleSubmit` from `ChatPanel.tsx` up to the `chatMutation.mutate`
call: returns the updated state and the request payload handed to
`chatWithBot` (`none` when the guard `!trimmed || chatMutation.isPending`
returns early and no request is issued). `localId` is the value of
`createLocalId()` and `now` the value of `new Date().toISOString()`. -/
def chatHandleSubmit (s : ChatPanelState) (localId now : String) :
    ChatPanelState × Option ChatRequestPayload :=
  let trimmed := jsTrim s.inputValue
  if trimmed = "" ∨ s.isPending then (s, none)
  else
    let userMessage : ChatLogMessage :=
      { id := localId, role := .user, content := trimmed, created_at := now,
        pending := true }
    ({ s with
        messages := s.messages ++ [userMessage],
        inputValue := "",
        chatError := none,
        pendingMessageId := some localId,
        isPending := true },
     some { message := trimmed, conversation_id := s.conversationId,
            top_k := none })

/-- The `onSuccess` callback of `chatMutation.mutate` in `ChatPanel.tsx`. -/
def chatOnSuccess (s : ChatPanelState) (localId : String)
    (response : ChatResponsePayload) : ChatPanelState :=
  { s with
      conversationId := some response.conversation_id,
      messages :=
        (s.messages.map fun m =>
          if m.id = localId then { m with pending := false } else m) ++
        [mapResponseMessage response.reply],
      contextChunks := response.context,
      pendingMessageId := none,
      isPending := false }

/-- The `onError` callback of `chatMutation.mutate` in `ChatPanel.tsx`;
`errMsg` is the value of `getErrorMessage(error)`. -/
def chatOnError (s : ChatPanelState) (localId errMsg : String) :
    ChatPanelState :=
  { s with
      chatError := some errMsg,
      messages := s.messages.filter fun m => m.id != localId,
      pendingMessageId := none,
      isPending := false }

/-- The source item `handleReset` from `ChatPanel.tsx`. -/
def chatHandleReset (s : ChatPanelState) : ChatPanelState :=
  { s with conversationId := none, messages := [], contextChunks := [],
           chatError := none, pendingMessageId := none }

/-- The events the chat panel reacts to: typing in the composer, a form
submission, the mutation settling with success or failure, and the reset
button. -/
inductive PanelEvent where
  | setInput (text : String)
  | submit (localId now : String)
  | success (localId : String) (response : ChatResponsePayload)
  | failure (localId errMsg : String)
  | reset

/-- One step of the chat panel: dispatch an event to the handler the
component installs for it. -/
def panelStep (s : ChatPanelState) : PanelEvent → ChatPanelState
  | .setInput text => { s with inputValue := text }
  | .submit localId now => (chatHandleSubmit s localId now).1
  | .success localId response => chatOnSuccess s localId response
  | .failure localId errMsg => chatOnError s localId errMsg
  | .reset => chatHandleReset s

/-- Run the chat panel over a list of events. -/
def panelRun (s : ChatPanelState) (events : List PanelEvent) :
    ChatPanelState :=
  events.foldl panelStep s

/-- The conversation id most recently returned by the server over an event
history (`none` before any successful turn, and again after a reset). -/
def lastServerConv (acc : Option String) : List PanelEvent → Option String
  | [] => acc
  | e :: es =>
      lastServerConv
        (match e with
          | .success _ response => some response.conversation_id
          | .reset => none
          | _ => acc) es

/-- Line 129 of `ChatPanel.tsx`: the retrieved-context section is rendered
exactly when `contextChunks.length > 0`. -/
def showContextSection (s : ChatPanelState) : Bool :=
  s.contextChunks.length > 0

/-- What one list item of the retrieved-context section displays
(lines 133–141 of `ChatPanel.tsx`): the heading is
`chunk.document_name ?? chunk.document_id`, the score value feeds
`score.toFixed(3)` (number formatting abstracted), and the body is
`chunk.content`. -/
structure RenderedChunk where
  heading : String
  score : ℚ
  content : String
deriving DecidableEq, Repr

/-- Renders one context chunk as its list item. -/
def renderChunkItem (c : ChatContextChunk) : RenderedChunk :=
  { heading := c.document_name.getD c.document_id, score := c.score,
    content := c.content }

/-- The retrieved-context list is rendered by mapping `renderChunkItem`
positionally over `contextChunks`. -/
def renderContextItems (ctx : List ChatContextChunk) : List RenderedChunk :=
  ctx.map renderChunkItem

/-! ### Chatbot-creation form (frontend/src/routes/ChatbotsPage.tsx)

The form keeps `temperature` and `top_k` as strings and lets
`z.coerce.number()` apply the JavaScript `Number(...)` conversion during
validation.  The embedding carries those two fields already converted:
`some q` is the finite numeric value the string coerces to, `none` stands
for a coercion result of `NaN` or an infinity (either fails the schema:
`NaN` fails the number type check, an infinity fails `.int()`/`min`/`max`).
-/

/-- The submitted form values handed to `chatbotFormSchema.safeParse` in
`handleSubmit` of `ChatbotsPage.tsx` (lines 433–440): `system_prompt` is
passed as `undefined` when the form string is empty. -/
structure ChatbotFormState where
  name : String
  model_provider : String
  model_name : String
  system_prompt : String
  temperature : Option ℚ
  top_k : Option ℚ
deriving DecidableEq, Repr

/-- One entry per form field of the `formErrors` record set in the
validation-failure branch of `handleSubmit` (`issues.<field>?.[0]`). -/
structure ChatbotFieldErrors where
  name : Option String
  model_provider : Option String
  model_name : Option String
  system_prompt : Option String
  temperature : Option String
  top_k : Option String
deriving DecidableEq, Repr

/-- The source item `CreateChatbotInput` from `types.ts`, as built in the success branch of
`handleSubmit`. -/
structure CreateChatbotInput where
  name : String
  model_provider : String
  model_name : String
  system_prompt : Option String
  temperature : ℚ
  top_k : ℚ
deriving DecidableEq, Repr

/-- The source item `z.string().min(1, msg)`: the issue list for a required string. -/
def zStringMin1 (msg : String) (s : String) : List String :=
  if s.length < 1 then [msg] else []

/-- The source item `z.string().max(5000, 'Prompt is too long').optional()`: the issue list
for the optional system prompt. -/
def zPromptIssues : Option String → List String
  | none => []
  | some s => if 5000 < s.length then ["Prompt is too long"] else []

/-- The source item `z.coerce.number().min(0).max(1)` applied to the temperature field:
the issue list of the zod checks, in check order, with zod's default
messages. -/
def zTemperatureIssues : Option ℚ → List String
  | none => ["Expected number, received nan"]
  | some q =>
      (if q < 0 then ["Number must be greater than or equal to 0"] else []) ++
      (if 1 < q then ["Number must be less than or equal to 1"] else [])

/-- The source item `z.coerce.number().int().min(1).max(20)` applied to the `top_k` field:
the issue list of the zod checks, in check order, with zod's default
messages. -/
def zTopKIssues : Option ℚ → List String
  | none => ["Expected number, received nan"]
  | some q =>
      (if q.den ≠ 1 then ["Expected integer, received float"] else []) ++
      (if q < 1 then ["Number must be greater than or equal to 1"] else []) ++
      (if 20 < q then ["Number must be less than or equal to 20"] else [])

/-- The expression `formState.system_prompt ? formState.system_prompt :
undefined` on line 437 of `ChatbotsPage.tsx` (the empty string is falsy). -/
def optionalPrompt (s : String) : Option String :=
  if s = "" then none else some s

/-- The expression `parsed.data.system_prompt?.trim() || undefined` on
line 459 of `ChatbotsPage.tsx` (a trimmed-to-empty prompt is falsy and
becomes `undefined`). -/
def normalizedPrompt (sp : Option String) : Option String :=
  sp.bind fun s => if jsTrim s = "" then none else some (jsTrim s)

/-- The outcome of `handleSubmit` in `ChatbotsPage.tsx`: either validation
fails, field errors are recorded and no API call is made, or
`createMutation.mutate(payload)` fires `createChatbot` with the payload. -/
inductive ChatbotSubmitResult where
  | invalid (errs : ChatbotFieldErrors)
  | created (payload : CreateChatbotInput)
deriving DecidableEq, Repr

/-- The source item `handleSubmit` from `ChatbotsPage.tsx` (lines 430–463): run
`chatbotFormSchema.safeParse` on the form values; on failure record the
first issue of each field and stop; on success post the payload (with the
trimmed-or-omitted system prompt). -/
def chatbotsHandleSubmit (f : ChatbotFormState) : ChatbotSubmitResult :=
  let spInput : Option String := optionalPrompt f.system_prompt
  let nameIssues := zStringMin1 "Name is required" f.name
  let providerIssues := zStringMin1 "Provider is required" f.model_provider
  let modelIssues := zStringMin1 "Model is required" f.model_name
  let spIssues := zPromptIssues spInput
  let tempIssues := zTemperatureIssues f.temperature
  let tkIssues := zTopKIssues f.top_k
  let errs : ChatbotFieldErrors :=
    { name := nameIssues.head?, model_provider := providerIssues.head?,
      model_name := modelIssues.head?, system_prompt := spIssues.head?,
      temperature := tempIssues.head?, top_k := tkIssues.head? }
  match f.temperature, f.top_k with
  | some t, some k =>
      if nameIssues.isEmpty && providerIssues.isEmpty && modelIssues.isEmpty
          && spIssues.isEmpty && tempIssues.isEmpty && tkIssues.isEmpty then
        .created
          { name := f.name, model_provider := f.model_provider,
            model_name := f.model_name,
            system_prompt := normalizedPrompt spInput,
            temperature := t, top_k := k }
      else .invalid errs
  | _, _ => .invalid errs

/-- The `top_k` form value parses as an integer `k` with `1 ≤ k ≤ 20`. -/
def topKValid : Option ℚ → Prop
  | none => False
  | some q => q.den = 1 ∧ 1 ≤ q ∧ q ≤ 20

instance : (o : Option ℚ) → Decidable (topKValid o)
  | none => isFalse fun h => h
  | some q => inferInstanceAs (Decidable (q.den = 1 ∧ 1 ≤ q ∧ q ≤ 20))

/-! ### Token storage (frontend/src/lib/api.ts) -/

/-- The browser `localStorage`, embedded as an association list of keys to
values plus an availability flag: when `avail` is `false` every access
throws (as it does in browsers that block storage), which the embedded
operations report through `Except`. -/
structure BrowserStorage where
  avail : Bool
  items : List (String × String)
deriving DecidableEq, Repr

/-- The source item `localStorage.getItem`. -/
def BrowserStorage.getItem (st : BrowserStorage) (k : String) :
    Except String (Option String) :=
  if st.avail then .ok ((st.items.find? fun kv => kv.1 == k).map Prod.snd)
  else .error "SecurityError"

/-- The source item `localStorage.setItem`: replaces any existing binding for the key. -/
def BrowserStorage.setItem (st : BrowserStorage) (k v : String) :
    Except String BrowserStorage :=
  if st.avail then
    .ok { st with items := (k, v) :: st.items.filter fun kv => kv.1 != k }
  else .error "SecurityError"

/-- The source item `localStorage.removeItem`. -/
def BrowserStorage.removeItem (st : BrowserStorage) (k : String) :
    Except String BrowserStorage :=
  if st.avail then
    .ok { st with items := st.items.filter fun kv => kv.1 != k }
  else .error "SecurityError"

/-- The source item `TOKEN_STORAGE_KEY` from `api.ts`. -/
def TOKEN_STORAGE_KEY : String := "ragbuilder.authToken"

/-- The source item `getStoredToken` from `api.ts`: reads the token, catching any storage
exception and returning `null` in that case. -/
def getStoredToken (st : BrowserStorage) : Option String :=
  match st.getItem TOKEN_STORAGE_KEY with
  | .ok v => v
  | .error _ => none

/-- The source item `setStoredToken` from `api.ts`: `!token` (null or the empty string)
removes the key, otherwise the token is stored; any storage exception is
caught (only logged), so the function always returns normally with the
resulting storage. -/
def setStoredToken (token : Option String) (st : BrowserStorage) :
    BrowserStorage :=
  let attempt : Except String BrowserStorage :=
    match token with
    | none => st.removeItem TOKEN_STORAGE_KEY
    | some t =>
        if t = "" then st.removeItem TOKEN_STORAGE_KEY
        else st.setItem TOKEN_STORAGE_KEY t
  match attempt with
  | .ok st' => st'
  | .error _ => st

/-! ### Ingestion state machine (modelled from the spec)

The Ingestion Job Controller lives in the worker service, which is not
among the available sources; the state machine below is modelled from
§4.5 and §7 of the spec. -/

/-- Modelled from the spec: the events of the Ingestion Job Controller's
state machine (§4.5): a job is picked up, completes, fails with a recorded
error string, or the document is resubmitted. -/
inductive DocEvent where
  | pickup
  | complete
  | fail (msg : String)
  | resubmit
deriving DecidableEq, Repr

/-- Modelled from the spec: the status/error pair of one `Document` row as
mutated by the Job Controller (§3, §4.5). -/
structure DocCore where
  status : DocumentStatus
  error : Option String
deriving DecidableEq, Repr

/-- Modelled from the spec: a freshly uploaded document — status `PENDING`
(the only initial state) and no error recorded. -/
def docInit : DocCore := { status := specInitialStatus, error := none }

/-- Modelled from the spec: one transition of the §4.5 state machine.
`PENDING → PROCESSING` on pickup, `PROCESSING → READY` on completion,
`PROCESSING → FAILED` on any stage failure (recording the error string,
§7), and `READY|FAILED → PENDING` on resubmission (which clears the prior
attempt).  Any other event in a given state is not a transition (`none`). -/
def docStep (d : DocCore) : DocEvent → Option DocCore
  | .pickup =>
      if d.status = .pending then
        some { status := .processing, error := none } else none
  | .complete =>
      if d.status = .processing then
        some { status := .ready, error := none } else none
  | .fail msg =>
      if d.status = .processing then
        some { status := .failed, error := some msg } else none
  | .resubmit =>
      if d.status = .ready ∨ d.status = .failed then
        some { status := .pending, error := none } else none

/-- Modelled from the spec: run the state machine over an event history,
refusing histories that contain an impossible transition. -/
def docRun (d : DocCore) : List DocEvent → Option DocCore
  | [] => some d
  | e :: es =>
      match docStep d e with
      | some d' => docRun d' es
      | none => none

/-! ### Vector index and retrieval engine (modelled from the spec)

The Vector Index and Retrieval Engine live in the backend/worker services,
which are not among the available sources; the definitions below are
modelled from §4.4 and §4.7 of the spec.  The similarity metric (cosine,
§4.4) is kept abstract as a parameter `sim`, since the ordering contract
holds for any metric. -/

/-- Modelled from the spec: one vector held by a tenant's index — a chunk
id mapped to its embedding vector (§4.4). -/
structure VectorIndexEntry where
  chunkId : Nat
  vec : List ℚ
deriving DecidableEq, Repr

/-- Modelled from the spec: score every indexed vector against the query
vector. -/
def scoreEntries (sim : List ℚ → List ℚ → ℚ) (q : List ℚ)
    (entries : List VectorIndexEntry) : List (Nat × ℚ) :=
  entries.map fun e => (e.chunkId, sim q e.vec)

/-- Modelled from the spec: the §4.4 result order on `(chunkId, score)`
pairs — higher score first, ties broken by ascending chunk id. -/
def rankLE (a b : Nat × ℚ) : Prop :=
  b.2 < a.2 ∨ (a.2 = b.2 ∧ a.1 ≤ b.1)

instance : DecidableRel rankLE := fun a b =>
  inferInstanceAs (Decidable (b.2 < a.2 ∨ (a.2 = b.2 ∧ a.1 ≤ b.1)))

instance : IsTrans (Nat × ℚ) rankLE where
  trans a b c hab hbc := by
    rcases hab with hab | ⟨hab, hab'⟩
    · rcases hbc with hbc | ⟨hbc, _⟩
      · exact Or.inl (lt_trans hbc hab)
      · exact Or.inl (hbc ▸ hab)
    · rcases hbc with hbc | ⟨hbc, hbc'⟩
      · exact Or.inl (hab ▸ hbc)
      · exact Or.inr ⟨hab.trans hbc, le_trans hab' hbc'⟩

instance : IsTotal (Nat × ℚ) rankLE where
  total a b := by
    rcases lt_trichotomy a.2 b.2 with h | h | h
    · exact Or.inr (Or.inl h)
    · rcases Nat.le_total a.1 b.1 with h1 | h1
      · exact Or.inl (Or.inr ⟨h, h1⟩)
      · exact Or.inr (Or.inr ⟨h.symm, h1⟩)
    · exact Or.inl (Or.inl h)

/-- Modelled from the spec: `query(vector, k)` of the Vector Index (§4.4):
score every indexed vector, order by descending score with ascending chunk
id on ties, and return at most `k` results. -/
def indexQuery (sim : List ℚ → List ℚ → ℚ) (entries : List VectorIndexEntry)
    (q : List ℚ) (k : Nat) : List (Nat × ℚ) :=
  ((scoreEntries sim q entries).insertionSort rankLE).take k

/-- Modelled from the spec: a persisted `Chunk` row as read by the
Retrieval Engine's resolution join (§4.7, §6). -/
structure ChunkRec where
  id : Nat
  documentId : Nat
  content : String
deriving DecidableEq, Repr

/-- Modelled from the spec: a persisted `Document` row as read by the
Retrieval Engine's resolution join (§4.7, §6). -/
structure DocRec where
  id : Nat
  name : String
  status : DocumentStatus
deriving DecidableEq, Repr

/-- Modelled from the spec: one tenant's view of the persistence layer and
its vector index (§3, §4.6). -/
structure TenantStore where
  docs : List DocRec
  chunks : List ChunkRec
  index : List VectorIndexEntry
deriving DecidableEq, Repr

/-- Modelled from the spec: the resolution join is well-formed — every
indexed chunk id has a persisted `Chunk` row and every chunk's document
exists (§3: a chunk belongs to one `Document`, which is never deleted
while chunks reference it). -/
def TenantStore.WF (st : TenantStore) : Prop :=
  (∀ e ∈ st.index, ∃ ch ∈ st.chunks, ch.id = e.chunkId) ∧
  (∀ ch ∈ st.chunks, ∃ d ∈ st.docs, d.id = ch.documentId)

/-- Modelled from the spec: the §3 index-contents invariant — every vector
in a tenant's index belongs to a chunk of one of that tenant's `READY`
documents ("no more, no less"; only the containment direction is needed
here). -/
def TenantStore.IndexInv (st : TenantStore) : Prop :=
  ∀ e ∈ st.index, ∃ ch ∈ st.chunks, ch.id = e.chunkId ∧
    ∃ d ∈ st.docs, d.id = ch.documentId ∧ d.status = .ready

instance (st : TenantStore) : Decidable st.WF :=
  inferInstanceAs (Decidable
    ((∀ e ∈ st.index, ∃ ch ∈ st.chunks, ch.id = e.chunkId) ∧
     (∀ ch ∈ st.chunks, ∃ d ∈ st.docs, d.id = ch.documentId)))

instance (st : TenantStore) : Decidable st.IndexInv :=
  inferInstanceAs (Decidable
    (∀ e ∈ st.index, ∃ ch ∈ st.chunks, ch.id = e.chunkId ∧
      ∃ d ∈ st.docs, d.id = ch.documentId ∧ d.status = .ready))

/-- Modelled from the spec: resolve one `(chunkId, score)` query result
back to its text content and owning document name (§4.7), producing the
`ChatContextChunk` shape of the public interface; the document name is the
nullable join result. -/
def resolveChunk (st : TenantStore) (cid : Nat) (score : ℚ) :
    Option ChatContextChunk :=
  match st.chunks.find? fun ch => ch.id == cid with
  | none => none
  | some ch =>
      some { id := toString ch.id, document_id := toString ch.documentId,
             document_name :=
               (st.docs.find? fun d => d.id == ch.documentId).map DocRec.name,
             score := score, content := ch.content }

/-- Modelled from the spec: `retrieve(tenantId, queryText, k)` of the
Retrieval Engine (§4.7) after the query text has been embedded into `q`:
query the tenant's index for the top `k` and resolve each result; an empty
result list is returned as an ordinary value, never as an error. -/
def retrieve (sim : List ℚ → List ℚ → ℚ) (st : TenantStore) (q : List ℚ)
    (k : Nat) : List ChatContextChunk :=
  (indexQuery sim st.index q k).filterMap fun p => resolveChunk st p.1 p.2

/-- A concrete similarity for witnesses: the first coordinate of the stored
vector, which equals its inner product with the unit query vector `[1, 0]`. -/
def simCoord0 (_q v : List ℚ) : ℚ := v.headD 0

/-! ## Claims -/

/-- Claim C2: Every document's status at the public interface is exactly one
of the four states `pending`, `processing`, `ready`, `failed` (`pending` is
the only initial state), and the document listing maps each of these four
states, and no other, to a display label. -/
theorem c2_document_status_states_and_labels :
    (∀ s : DocumentStatus,
      s = .pending ∨ s = .processing ∨ s = .ready ∨ s = .failed) ∧
    specInitialStatus = .pending ∧
    (∀ s : DocumentStatus, (documentStatusLabels s.key).isSome = true) ∧
    (∀ k : String, (documentStatusLabels k).isSome = true →
      ∃ s : DocumentStatus, s.key = k) := by
  refine ⟨?_, rfl, ?_, ?_⟩
  · intro s; cases s <;> simp
  · intro s; cases s <;> rfl
  · intro k h
    unfold documentStatusLabels at h
    split_ifs at h with h1 h2 h3 h4
    · exact ⟨.pending, h1.symm⟩
    · exact ⟨.processing, h2.symm⟩
    · exact ⟨.ready, h3.symm⟩
    · exact ⟨.failed, h4.symm⟩
    · simp at h

/-- Witness for claim C2: The label key `"ready"` is realised by a status value. -/
theorem c2_document_status_states_and_labels_witness :
    ∃ s : DocumentStatus, s.key = "ready" :=
  c2_document_status_states_and_labels.2.2.2 "ready" (by decide)

/-- Counterexample for claim C7: The `ChatbotDocument` record exposed at the
public interface carries no tenant-identifying field: neither `tenant_id`
nor `chatbot_id` is among its attributes, refuting the claim that every
exposed document record carries a tenant id. -/
theorem c7_counterexample_no_tenant_field :
    ¬ ("tenant_id" ∈ chatbotDocumentFields ∨
       "chatbot_id" ∈ chatbotDocumentFields) := by decide

/-- Claim C7 as amended: Every `ChatbotDocument` record exposed at the public
interface carries the attributes id, file name, mime type, size, status,
a nullable error message, and created/updated timestamps — and nothing
else; the owning tenant (chatbot) is identified by the request path, not
by a field of the record. -/
theorem c7_document_record_fields :
    "id" ∈ chatbotDocumentFields ∧
    "file_name" ∈ chatbotDocumentFields ∧
    "mime_type" ∈ chatbotDocumentFields ∧
    "size_bytes" ∈ chatbotDocumentFields ∧
    "status" ∈ chatbotDocumentFields ∧
    "error" ∈ chatbotDocumentFields ∧
    "created_at" ∈ chatbotDocumentFields ∧
    "updated_at" ∈ chatbotDocumentFields ∧
    chatbotDocumentFields.length = 8 ∧
    "tenant_id" ∉ chatbotDocumentFields := by decide

/-- Every state the §4.5 state machine can step into satisfies the
status/error invariant, whatever the state it stepped from. -/
theorem docStep_error_iff_failed (d : DocCore) (e : DocEvent) (d' : DocCore)
    (h : docStep d e = some d') : d'.error ≠ none ↔ d'.status = .failed := by
  cases e <;> simp only [docStep] at h <;> split at h <;>
    cases h <;> simp

/-- The status/error invariant propagates along any event history. -/
theorem docRun_error_iff_failed (events : List DocEvent) :
    ∀ d₀ d : DocCore, (d₀.error ≠ none ↔ d₀.status = .failed) →
      docRun d₀ events = some d → (d.error ≠ none ↔ d.status = .failed) := by
  induction events with
  | nil =>
      intro d₀ d h0 h
      simp only [docRun] at h
      cases h
      exact h0
  | cons e es ih =>
      intro d₀ d h0 h
      simp only [docRun] at h
      cases hstep : docStep d₀ e with
      | none => rw [hstep] at h; cases h
      | some d1 =>
          rw [hstep] at h
          exact ih d1 d (docStep_error_iff_failed d₀ e d1 hstep) h

/-- Claim C3: For every document record exposed at the public interface, the
error field is non-null if and only if the document's status is `failed`
(proved over the ingestion state machine modelled from the spec, starting
from the initial `pending` state with no error). -/
theorem c3_error_iff_failed (events : List DocEvent) (d : DocCore)
    (h : docRun docInit events = some d) :
    d.error ≠ none ↔ d.status = .failed :=
  docRun_error_iff_failed events docInit d
    (by simp [docInit, specInitialStatus]) h

/-- Witness for claim C3: A pickup followed by a failure lands in `failed` with a
recorded error, and the invariant holds there. -/
theorem c3_error_iff_failed_witness :
    docRun docInit [DocEvent.pickup, DocEvent.fail "boom"] =
      some { status := .failed, error := some "boom" } ∧
    (({ status := .failed, error := some "boom" } : DocCore).error ≠ none ↔
      ({ status := .failed, error := some "boom" } : DocCore).status =
        .failed) :=
  ⟨by decide, c3_error_iff_failed [DocEvent.pickup, DocEvent.fail "boom"] _
    (by decide)⟩

/-- Claim C10: Token storage round-trips: storing a non-empty token and
reading it back yields that token; storing `null` and reading back yields
`null`; and when the underlying `localStorage` access throws,
`getStoredToken` returns `null` and `setStoredToken` returns normally
(with the storage unchanged) instead of propagating the exception. -/
theorem c10_token_storage_roundtrip :
    (∀ (st : BrowserStorage) (t : String), st.avail = true → t ≠ "" →
      getStoredToken (setStoredToken (some t) st) = some t) ∧
    (∀ st : BrowserStorage, getStoredToken (setStoredToken none st) = none) ∧
    (∀ st : BrowserStorage, st.avail = false →
      getStoredToken st = none ∧ ∀ t, setStoredToken t st = st) := by
  refine ⟨?_, ?_, ?_⟩
  · intro st t ha ht
    simp [setStoredToken, BrowserStorage.setItem, ha, ht, getStoredToken,
      BrowserStorage.getItem, List.find?]
  · intro st
    cases ha : st.avail
    · simp [setStoredToken, BrowserStorage.removeItem, ha, getStoredToken,
        BrowserStorage.getItem]
    · simp only [setStoredToken, BrowserStorage.removeItem, ha, if_true]
      simp only [getStoredToken, BrowserStorage.getItem, ha, if_true]
      rw [List.find?_eq_none.mpr]
      · rfl
      · intro kv hkv
        rw [List.mem_filter] at hkv
        simpa using hkv.2
  · intro st ha
    constructor
    · simp [getStoredToken, BrowserStorage.getItem, ha]
    · intro t
      cases t with
      | none => simp [setStoredToken, BrowserStorage.removeItem, ha]
      | some t' =>
          by_cases ht : t' = "" <;>
            simp [setStoredToken, BrowserStorage.removeItem,
              BrowserStorage.setItem, ha, ht]

/-- Witness for claim C10: Storing `"tok"` in a working empty storage and reading
it back returns `"tok"`. -/
theorem c10_token_storage_roundtrip_witness :
    getStoredToken
      (setStoredToken (some "tok") { avail := true, items := [] }) =
      some "tok" :=
  c10_token_storage_roundtrip.1 { avail := true, items := [] } "tok" rfl
    (by decide)

/-- The `top_k` issue list is empty exactly when the value is an integer
between 1 and 20. -/
theorem zTopKIssues_eq_nil_iff (o : Option ℚ) :
    zTopKIssues o = [] ↔ topKValid o := by
  cases o with
  | none => simp [zTopKIssues, topKValid]
  | some q =>
      simp only [zTopKIssues, topKValid]
      split_ifs with h1 h2 h3 <;> simp_all [not_lt]

/-- Claim C1: For every submission of the chatbot-creation form, the
`createChatbot` API call is made only when the submitted `top_k` value
parses as an integer `k` with `1 ≤ k ≤ 20`; for any submission whose
`top_k` is non-integral or outside `1..20`, validation fails, a field
error is recorded on `top_k`, and `createChatbot` is not called. -/
theorem c1_top_k_validation (f : ChatbotFormState) :
    ((∃ p, chatbotsHandleSubmit f = .created p) → topKValid f.top_k) ∧
    (¬ topKValid f.top_k →
      ∃ e, chatbotsHandleSubmit f = .invalid e ∧ e.top_k ≠ none) := by
  constructor
  · rintro ⟨p, hp⟩
    rcases htemp : f.temperature with _ | t <;>
      rcases htk : f.top_k with _ | k <;>
      simp only [chatbotsHandleSubmit, htemp, htk] at hp
    · cases hp
    · cases hp
    · cases hp
    · split at hp
      · rename_i hcond
        simp only [Bool.and_eq_true, List.isEmpty_iff] at hcond
        exact (zTopKIssues_eq_nil_iff (some k)).mp hcond.2
      · cases hp
  · intro hnv
    have hne : zTopKIssues f.top_k ≠ [] := fun h =>
      hnv ((zTopKIssues_eq_nil_iff f.top_k).mp h)
    have hhead : (zTopKIssues f.top_k).head? ≠ none := by
      cases hz : zTopKIssues f.top_k with
      | nil => exact absurd hz hne
      | cons a l => simp
    rcases htemp : f.temperature with _ | t <;>
      rcases htk : f.top_k with _ | k <;>
      rw [htk] at hhead hne <;>
      simp only [chatbotsHandleSubmit, htemp, htk]
    · exact ⟨_, rfl, hhead⟩
    · exact ⟨_, rfl, hhead⟩
    · exact ⟨_, rfl, hhead⟩
    · rw [if_neg]
      · exact ⟨_, rfl, hhead⟩
      · intro hcond
        simp only [Bool.and_eq_true, List.isEmpty_iff] at hcond
        exact hne hcond.2

/-- Witness for claim C1: Submitting the form with `top_k = 5/2` (a non-integral
coercion result) records a `top_k` field error and makes no API call. -/
theorem c1_top_k_validation_witness :
    ¬ topKValid (some (mkRat 5 2)) ∧
    ∃ e, chatbotsHandleSubmit
        { name := "Support Bot", model_provider := "gemini",
          model_name := "models/gemini-2.5-flash", system_prompt := "",
          temperature := some (mkRat 1 5), top_k := some (mkRat 5 2) } =
        .invalid e ∧ e.top_k ≠ none :=
  ⟨by decide,
   (c1_top_k_validation
      { name := "Support Bot", model_provider := "gemini",
        model_name := "models/gemini-2.5-flash", system_prompt := "",
        temperature := some (mkRat 1 5), top_k := some (mkRat 5 2) }).2
     (by decide)⟩

/-- The chat panel's conversation id always equals the one most recently
returned by the server (or `none` at session start and after a reset). -/
theorem panelRun_conversationId (events : List PanelEvent) :
    ∀ s : ChatPanelState,
      (panelRun s events).conversationId =
        lastServerConv s.conversationId events := by
  induction events with
  | nil => intro s; rfl
  | cons e es ih =>
      intro s
      cases e with
      | setInput text =>
          show (panelRun (panelStep s (.setInput text)) es).conversationId =
            lastServerConv s.conversationId es
          rw [ih]
          rfl
      | submit localId now =>
          show (panelRun (panelStep s (.submit localId now)) es).conversationId
            = lastServerConv s.conversationId es
          rw [ih]
          congr 1
          simp only [panelStep, chatHandleSubmit]
          split <;> rfl
      | success localId response =>
          show (panelRun (panelStep s (.success localId response))
              es).conversationId =
            lastServerConv (some response.conversation_id) es
          rw [ih]
          rfl
      | failure localId errMsg =>
          show (panelRun (panelStep s (.failure localId errMsg))
              es).conversationId =
            lastServerConv s.conversationId es
          rw [ih]
          rfl
      | reset =>
          show (panelRun (panelStep s .reset) es).conversationId =
            lastServerConv none es
          rw [ih]
          rfl

/-- Claim C8: A chat request is issued iff the trimmed input is non-empty and
no request is pending; when issued, its message is the trimmed input, its
`conversation_id` is the panel's current conversation id — which over any
event history is `undefined` before the first successful turn of a session
and the most recently returned server conversation id afterwards — and the
panel never sets `top_k`. -/
theorem c8_chat_submission (s : ChatPanelState) (localId now : String) :
    ((chatHandleSubmit s localId now).2.isSome = true ↔
      (jsTrim s.inputValue ≠ "" ∧ s.isPending = false)) ∧
    (∀ req, (chatHandleSubmit s localId now).2 = some req →
      req.message = jsTrim s.inputValue ∧
      req.conversation_id = s.conversationId ∧
      req.top_k = none) ∧
    (∀ events : List PanelEvent,
      (panelRun initialChatPanelState events).conversationId =
        lastServerConv none events) := by
  refine ⟨?_, ?_, ?_⟩
  · by_cases h1 : jsTrim s.inputValue = ""
    · simp [chatHandleSubmit, h1]
    · by_cases h2 : s.isPending
      · simp [chatHandleSubmit, h1, h2]
      · simp [chatHandleSubmit, h1, h2]
  · intro req h
    by_cases h1 : jsTrim s.inputValue = ""
    · simp [chatHandleSubmit, h1] at h
    · by_cases h2 : s.isPending
      · simp [chatHandleSubmit, h1, h2] at h
      · simp only [chatHandleSubmit, h1, h2, false_or, Bool.false_eq_true,
          or_self, if_false] at h
        injection h with h
        subst h
        exact ⟨rfl, rfl, rfl⟩
  · intro events
    exact panelRun_conversationId events initialChatPanelState

/-- Witness for claim C8: Submitting `" hello "` from the initial state issues a
request with the trimmed message, no conversation id, and no `top_k`. -/
theorem c8_chat_submission_witness :
    ({ message := "hello", conversation_id := none, top_k := none } :
        ChatRequestPayload).message =
      jsTrim ({ initialChatPanelState with inputValue := " hello " } :
        ChatPanelState).inputValue ∧
    ({ message := "hello", conversation_id := none, top_k := none } :
        ChatRequestPayload).conversation_id =
      ({ initialChatPanelState with inputValue := " hello " } :
        ChatPanelState).conversationId ∧
    ({ message := "hello", conversation_id := none, top_k := none } :
        ChatRequestPayload).top_k = none :=
  (c8_chat_submission { initialChatPanelState with inputValue := " hello " }
      "local-1" "2026-01-01T00:00:00Z").2.1
    { message := "hello", conversation_id := none, top_k := none }
    (by decide)

/-- Counterexample for claim C9: After a failed chat request the component state
is not literally "unchanged except for the error display": the composer's
input value was cleared at submit time and is not restored on error. -/
theorem c9_counterexample_input_not_restored :
    (chatOnError
        (chatHandleSubmit
          { initialChatPanelState with inputValue := "hi" } "L1" "t0").1
        "L1" "boom").inputValue ≠
      ({ initialChatPanelState with inputValue := "hi" } :
        ChatPanelState).inputValue := by decide

/-- Claim C9 as amended: If a chat request fails, the optimistically appended
user message is removed so the message log equals its pre-submit state, the
pending-message marker is cleared, the error message derived from the
failure is displayed, and the previously displayed context chunks and
conversation id are unchanged; all other state is unchanged except that
the composer input remains cleared (it was emptied at submit and is not
restored). -/
theorem c9_error_restores_log (s : ChatPanelState) (localId now msg : String)
    (hfresh : ∀ m ∈ s.messages, m.id ≠ localId)
    (hinput : jsTrim s.inputValue ≠ "")
    (hpending : s.isPending = false) :
    (chatOnError (chatHandleSubmit s localId now).1 localId msg).messages =
        s.messages ∧
    (chatOnError (chatHandleSubmit s localId now).1 localId
        msg).pendingMessageId = none ∧
    (chatOnError (chatHandleSubmit s localId now).1 localId msg).chatError =
        some msg ∧
    (chatOnError (chatHandleSubmit s localId now).1 localId
        msg).contextChunks = s.contextChunks ∧
    (chatOnError (chatHandleSubmit s localId now).1 localId
        msg).conversationId = s.conversationId ∧
    (chatOnError (chatHandleSubmit s localId now).1 localId msg).inputValue =
        "" := by
  have hcond : ¬ (jsTrim s.inputValue = "" ∨ s.isPending) := by
    simp [hinput, hpending]
  have hX : (chatHandleSubmit s localId now).1 =
      { s with
          messages := s.messages ++
            [{ id := localId, role := .user,
               content := jsTrim s.inputValue, created_at := now,
               pending := true }],
          inputValue := "",
          chatError := none,
          pendingMessageId := some localId,
          isPending := true } := by
    simp only [chatHandleSubmit, if_neg hcond]
  rw [hX]
  refine ⟨?_, rfl, rfl, rfl, rfl, rfl⟩
  show ((s.messages ++
      [({ id := localId, role := .user, content := jsTrim s.inputValue,
          created_at := now, pending := true } : ChatLogMessage)]).filter
        fun m => m.id != localId) = s.messages
  rw [List.filter_append]
  have h1 : s.messages.filter (fun m => m.id != localId) = s.messages :=
    List.filter_eq_self.mpr fun m hm => by simp [hfresh m hm]
  have h2 : List.filter (fun m => m.id != localId)
      [({ id := localId, role := .user, content := jsTrim s.inputValue,
          created_at := now, pending := true } : ChatLogMessage)] = [] := by
    simp [List.filter]
  rw [h1, h2, List.append_nil]

/-- A concrete pre-submit chat panel state for the C9 witness: non-empty
composer input and an existing conversation. -/
def sampleErrorState : ChatPanelState :=
  { initialChatPanelState with
      inputValue := "hi", conversationId := some "conv-1" }

/-- Witness for claim C9: A concrete failed turn: the log returns to its
pre-submit state, the error is shown, context and conversation id are
kept, and the input stays cleared. -/
theorem c9_error_restores_log_witness :
    (chatOnError
        (chatHandleSubmit
          sampleErrorState "L1" "t0").1
        "L1" "boom").messages = sampleErrorState.messages ∧
    (chatOnError
        (chatHandleSubmit
          sampleErrorState "L1" "t0").1
        "L1" "boom").pendingMessageId = none ∧
    (chatOnError
        (chatHandleSubmit
          sampleErrorState "L1" "t0").1
        "L1" "boom").chatError = some "boom" ∧
    (chatOnError
        (chatHandleSubmit
          sampleErrorState "L1" "t0").1
        "L1" "boom").contextChunks = sampleErrorState.contextChunks ∧
    (chatOnError
        (chatHandleSubmit
          sampleErrorState "L1" "t0").1
        "L1" "boom").conversationId = sampleErrorState.conversationId ∧
    (chatOnError
        (chatHandleSubmit
          sampleErrorState "L1" "t0").1
        "L1" "boom").inputValue = "" :=
  c9_error_restores_log
    sampleErrorState "L1" "t0" "boom"
    (by intro m hm; cases hm) (by decide) rfl

/-- Every query result is one of the scored index entries. -/
theorem indexQuery_subset (sim : List ℚ → List ℚ → ℚ)
    (entries : List VectorIndexEntry) (q : List ℚ) (k : Nat) :
    ∀ p ∈ indexQuery sim entries q k, p ∈ scoreEntries sim q entries :=
  fun _ hp =>
    (List.perm_insertionSort rankLE _).subset (List.mem_of_mem_take hp)

/-- Every scored pair carries the chunk id of the entry it scores. -/
theorem scoreEntries_fst (sim : List ℚ → List ℚ → ℚ) (q : List ℚ)
    (entries : List VectorIndexEntry) (p : Nat × ℚ)
    (hp : p ∈ scoreEntries sim q entries) :
    ∃ e ∈ entries, e.chunkId = p.1 := by
  simp only [scoreEntries, List.mem_map] at hp
  obtain ⟨e, he, rfl⟩ := hp
  exact ⟨e, he, rfl⟩

/-- A `filterMap` whose function succeeds on every element keeps the
length. -/
theorem length_filterMap_of_isSome {α β : Type} (f : α → Option β) :
    ∀ l : List α, (∀ a ∈ l, (f a).isSome = true) →
      (l.filterMap f).length = l.length := by
  intro l
  induction l with
  | nil => intro _; rfl
  | cons a t ih =>
      intro h
      cases hfa : f a with
      | none =>
          exact absurd (h a (List.mem_cons_self a t)) (by simp [hfa])
      | some b =>
          rw [List.filterMap_cons_some hfa, List.length_cons,
            List.length_cons, ih fun x hx => h x (List.mem_cons_of_mem a hx)]

/-- Claim C4: For every vector-index `query(vector, k)`, the returned list of
`(chunkId, score)` pairs has length at most `k`, is strictly descending by
score with score ties broken by ascending chunk id, every returned pair is
one of the tenant's scored vectors, for `k = 1` the returned chunk is the
global arg-max over the tenant's indexed vectors, and the context list
delivered to the client preserves this ranked order (it is stored and
rendered positionally). -/
theorem c4_query_ranking (sim : List ℚ → List ℚ → ℚ)
    (entries : List VectorIndexEntry) (q : List ℚ) (k : Nat)
    (hids : entries.Pairwise fun a b => a.chunkId ≠ b.chunkId) :
    (indexQuery sim entries q k).length ≤ k ∧
    (indexQuery sim entries q k).Pairwise
      (fun a b => b.2 < a.2 ∨ (a.2 = b.2 ∧ a.1 < b.1)) ∧
    (∀ p ∈ indexQuery sim entries q k, p ∈ scoreEntries sim q entries) ∧
    (k = 1 → ∀ p ∈ indexQuery sim entries q k, ∀ e ∈ entries,
      sim q e.vec ≤ p.2) ∧
    (∀ (s : ChatPanelState) (localId : String) (r : ChatResponsePayload),
      (chatOnSuccess s localId r).contextChunks = r.context) ∧
    (∀ (ctx : List ChatContextChunk) (i : Nat),
      (renderContextItems ctx)[i]? = (ctx[i]?).map renderChunkItem) := by
  have hperm := List.perm_insertionSort rankLE (scoreEntries sim q entries)
  have hsorted := List.sorted_insertionSort rankLE (scoreEntries sim q entries)
  have hscored_ids : (scoreEntries sim q entries).Pairwise
      (fun a b => a.1 ≠ b.1) :=
    List.Pairwise.map _ (fun a b h => h) hids
  have hsorted_ids : ((scoreEntries sim q entries).insertionSort
      rankLE).Pairwise (fun a b => a.1 ≠ b.1) :=
    (hperm.pairwise_iff fun h => Ne.symm h).mpr hscored_ids
  have hstrict : ((scoreEntries sim q entries).insertionSort
      rankLE).Pairwise
      (fun a b => b.2 < a.2 ∨ (a.2 = b.2 ∧ a.1 < b.1)) := by
    refine (hsorted.and hsorted_ids).imp ?_
    intro a b hab
    rcases hab with ⟨hlt | ⟨heq, hle⟩, hne⟩
    · exact Or.inl hlt
    · exact Or.inr ⟨heq, Nat.lt_of_le_of_ne hle hne⟩
  refine ⟨List.length_take_le k _, hstrict.sublist (List.take_sublist k _),
    indexQuery_subset sim entries q k, ?_, fun s localId r => rfl,
    fun ctx i => List.getElem?_map renderChunkItem ctx i⟩
  rintro rfl p hp e he
  have hmem : (e.chunkId, sim q e.vec) ∈
      (scoreEntries sim q entries).insertionSort rankLE :=
    hperm.mem_iff.mpr (List.mem_map_of_mem _ he)
  simp only [indexQuery] at hp
  cases hs : (scoreEntries sim q entries).insertionSort rankLE with
  | nil => rw [hs] at hp; simp at hp
  | cons a t =>
      rw [hs] at hp hmem
      rw [hs] at hsorted
      simp only [List.take_succ_cons, List.take_zero] at hp
      have hpa : p = a := by simpa using hp
      subst hpa
      rcases List.mem_cons.mp hmem with heq | hmem'
      · exact le_of_eq (congrArg Prod.snd heq)
      · rcases List.rel_of_sorted_cons hsorted _ hmem' with hlt | ⟨heq2, _⟩
        · exact le_of_lt hlt
        · exact le_of_eq heq2.symm

/-- The index entries used by the ranking witness. -/
def witnessEntries : List VectorIndexEntry :=
  [⟨2, [0, 1]⟩, ⟨1, [1, 0]⟩, ⟨3, [1, 0]⟩]

/-- Witness for claim C4: Three indexed vectors with a score tie: the top-2 query
result is bounded by 2 and strictly ordered (tie broken by chunk id). -/
theorem c4_query_ranking_witness :
    (indexQuery simCoord0 witnessEntries [1, 0] 2).length ≤ 2 ∧
    (indexQuery simCoord0 witnessEntries [1, 0] 2).Pairwise
      (fun a b => b.2 < a.2 ∨ (a.2 = b.2 ∧ a.1 < b.1)) :=
  ⟨(c4_query_ranking simCoord0 witnessEntries [1, 0] 2 (by decide)).1,
   (c4_query_ranking simCoord0 witnessEntries [1, 0] 2 (by decide)).2.1⟩

/-- Claim C5: Retrieval against a tenant with zero `READY` documents returns
an empty context list as an ordinary value (the turn succeeds rather than
erroring); on the client, a successful chat response whose context is
empty is a valid non-error outcome: the assistant reply is rendered as the
last log entry, no retrieved-context section is shown, and no error
message is set. -/
theorem c5_empty_retrieval (sim : List ℚ → List ℚ → ℚ) (st : TenantStore)
    (q : List ℚ) (k : Nat) (hinv : st.IndexInv)
    (hnoready : ∀ d ∈ st.docs, d.status ≠ .ready) :
    retrieve sim st q k = [] ∧
    (∀ (s : ChatPanelState) (localId now : String)
        (r : ChatResponsePayload), r.context = [] →
      jsTrim s.inputValue ≠ "" → s.isPending = false →
      (chatOnSuccess (chatHandleSubmit s localId now).1 localId
          r).contextChunks = [] ∧
      showContextSection
          (chatOnSuccess (chatHandleSubmit s localId now).1 localId r) =
        false ∧
      (chatOnSuccess (chatHandleSubmit s localId now).1 localId
          r).chatError = none ∧
      (chatOnSuccess (chatHandleSubmit s localId now).1 localId
          r).messages.getLast? = some (mapResponseMessage r.reply)) := by
  constructor
  · have hidx : st.index = [] := by
      cases hI : st.index with
      | nil => rfl
      | cons e es =>
          exfalso
          obtain ⟨ch, _, _, d, hd, _, hst⟩ :=
            hinv e (by rw [hI]; exact List.mem_cons_self e es)
          exact hnoready d hd hst
    simp [retrieve, indexQuery, scoreEntries, hidx]
  · intro s localId now r hctx hin hpend
    have hcond : ¬ (jsTrim s.inputValue = "" ∨ s.isPending) := by
      simp [hin, hpend]
    have hX : (chatHandleSubmit s localId now).1 =
        { s with
            messages := s.messages ++
              [{ id := localId, role := .user,
                 content := jsTrim s.inputValue, created_at := now,
                 pending := true }],
            inputValue := "",
            chatError := none,
            pendingMessageId := some localId,
            isPending := true } := by
      simp only [chatHandleSubmit, if_neg hcond]
    rw [hX]
    refine ⟨by simp [chatOnSuccess, hctx],
      by simp [showContextSection, chatOnSuccess, hctx], rfl, ?_⟩
    simp only [chatOnSuccess]
    exact List.getLast?_concat _

/-- A tenant with a single failed document, no chunks and an empty index,
satisfying the index-contents invariant. -/
def witnessEmptyStore : TenantStore :=
  { docs := [⟨1, "doc.txt", .failed⟩], chunks := [], index := [] }

/-- The empty-context chat response used by the C5 witness. -/
def witnessEmptyResponse : ChatResponsePayload :=
  { conversation_id := "conv-2",
    reply := { id := "m1", role := .assistant, content := "Hello!",
               created_at := "t1" },
    context := [], created_new_conversation := true }

/-- Witness for claim C5: Retrieval over the failed-only tenant is empty, and the
client handles the concrete empty-context success as a non-error turn. -/
theorem c5_empty_retrieval_witness :
    retrieve simCoord0 witnessEmptyStore [1, 0] 4 = [] ∧
    (chatOnSuccess (chatHandleSubmit sampleErrorState "L2" "t0").1 "L2"
        witnessEmptyResponse).contextChunks = [] ∧
    showContextSection
        (chatOnSuccess (chatHandleSubmit sampleErrorState "L2" "t0").1 "L2"
          witnessEmptyResponse) = false ∧
    (chatOnSuccess (chatHandleSubmit sampleErrorState "L2" "t0").1 "L2"
        witnessEmptyResponse).chatError = none ∧
    (chatOnSuccess (chatHandleSubmit sampleErrorState "L2" "t0").1 "L2"
        witnessEmptyResponse).messages.getLast? =
      some (mapResponseMessage witnessEmptyResponse.reply) :=
  ⟨(c5_empty_retrieval simCoord0 witnessEmptyStore [1, 0] 4 (by decide)
      (by decide)).1,
   (c5_empty_retrieval simCoord0 witnessEmptyStore [1, 0] 4 (by decide)
      (by decide)).2 sampleErrorState "L2" "t0" witnessEmptyResponse rfl
     (by decide) rfl⟩

/-- Claim C6: Every `ContextChunk` returned by the retrieval engine resolves
its chunk id back to the chunk's text content and its owning document's
name, and carries the similarity score of the ranked query result it came
from; in particular the owning document name is present (non-null) on
every returned context chunk, and no ranked result is dropped by
resolution. -/
theorem c6_context_resolution (sim : List ℚ → List ℚ → ℚ)
    (st : TenantStore) (q : List ℚ) (k : Nat) (hwf : st.WF) :
    (retrieve sim st q k).length = (indexQuery sim st.index q k).length ∧
    ∀ c ∈ retrieve sim st q k, ∃ ch ∈ st.chunks,
      c.id = toString ch.id ∧ c.content = ch.content ∧
      (∃ p ∈ indexQuery sim st.index q k, p.1 = ch.id ∧ c.score = p.2) ∧
      ∃ d ∈ st.docs, d.id = ch.documentId ∧ c.document_name = some d.name
    := by
  constructor
  · apply length_filterMap_of_isSome
    intro p hp
    obtain ⟨e, he, hid⟩ :=
      scoreEntries_fst sim q st.index p (indexQuery_subset sim st.index q k p hp)
    obtain ⟨ch, hch, hcheq⟩ := hwf.1 e he
    have hfind : (st.chunks.find? fun c => c.id == p.1).isSome := by
      rw [List.find?_isSome]
      exact ⟨ch, hch, by rw [hcheq, hid]; simp⟩
    unfold resolveChunk
    cases hf : st.chunks.find? fun c => c.id == p.1 with
    | none => rw [hf] at hfind; simp at hfind
    | some ch' => simp
  · intro c hc
    simp only [retrieve, List.mem_filterMap] at hc
    obtain ⟨p, hp, hres⟩ := hc
    unfold resolveChunk at hres
    cases hf : st.chunks.find? fun ch => ch.id == p.1 with
    | none => rw [hf] at hres; cases hres
    | some ch =>
        rw [hf] at hres
        injection hres with hres
        have hchmem := List.mem_of_find?_eq_some hf
        have hchid : ch.id = p.1 := by simpa using List.find?_some hf
        obtain ⟨d, hd, hdid⟩ := hwf.2 ch hchmem
        have hdsome : (st.docs.find? fun d0 => d0.id == ch.documentId).isSome
            := by
          rw [List.find?_isSome]
          exact ⟨d, hd, by rw [hdid]; simp⟩
        cases hdf : st.docs.find? fun d0 => d0.id == ch.documentId with
        | none => rw [hdf] at hdsome; simp at hdsome
        | some d' =>
            have hd'mem := List.mem_of_find?_eq_some hdf
            have hd'id : d'.id = ch.documentId := by
              simpa using List.find?_some hdf
            subst hres
            refine ⟨ch, hchmem, rfl, rfl, ⟨p, hp, hchid.symm, rfl⟩,
              d', hd'mem, hd'id, ?_⟩
            show (st.docs.find? fun d0 => d0.id == ch.documentId).map
              DocRec.name = some d'.name
            rw [hdf]
            rfl

/-- The tenant store used by the resolution witness: one ready document,
one chunk, one indexed vector. -/
def witnessStore : TenantStore :=
  { docs := [⟨1, "faq.txt", .ready⟩],
    chunks := [⟨10, 1, "Reset your password."⟩],
    index := [⟨10, [1, 0]⟩] }

/-- Witness for claim C6: The single retrieved chunk of the concrete store
resolves to its text, its score, and its owning document's name. -/
theorem c6_context_resolution_witness :
    ∃ ch ∈ witnessStore.chunks,
      ({ id := "10", document_id := "1", document_name := some "faq.txt",
         score := 1, content := "Reset your password." } :
        ChatContextChunk).id = toString ch.id ∧
      ({ id := "10", document_id := "1", document_name := some "faq.txt",
         score := 1, content := "Reset your password." } :
        ChatContextChunk).content = ch.content ∧
      (∃ p ∈ indexQuery simCoord0 witnessStore.index [1, 0] 1,
        p.1 = ch.id ∧
        ({ id := "10", document_id := "1",
           document_name := some "faq.txt", score := 1,
           content := "Reset your password." } :
          ChatContextChunk).score = p.2) ∧
      ∃ d ∈ witnessStore.docs, d.id = ch.documentId ∧
        ({ id := "10", document_id := "1", document_name := some "faq.txt",
           score := 1, content := "Reset your password." } :
          ChatContextChunk).document_name = some d.name :=
  (c6_context_resolution simCoord0 witnessStore [1, 0] 1 (by decide)).2
    { id := "10", document_id := "1", document_name := some "faq.txt",
      score := 1, content := "Reset your password." }
    (by decide)

end RagBuilder
